import Mathlib

/-
Verification of the EchoMind voice session controller
(src/voice/app/session.py, conversation_memory.py, config.py, server.py)
through a shallow embedding in Lean.

Modelling conventions:
* Python floats carrying wall-clock times, audio samples and rates are
  modelled as rationals; machine byte strings as lists of integers.
* External collaborators (the STT model, the LLM, the Piper TTS
  synthesizer) and the internal pure text normalizer
  strip_markdown_for_speech are passed as function parameters: the
  verified properties are parametric in them, exactly as the spec treats
  them as opaque collaborators.
* Each asynchronous read of the session field generation_id performed by
  a producer task is modelled by one call to an oracle gens : Nat -> Nat
  giving the current epoch at that read, in program order.
* asyncio.Queue is modelled as a list with an explicit maxsize; put_nowait
  is an Except value whose error constructor models the QueueFull
  exception that the source catches.
-/

namespace EchoMind

/-! ## Python string helpers -/

/-- Python whitespace characters used by str.strip (space, tab, newline,
carriage return, vertical tab, form feed). -/
def isPyWhitespace (c : Char) : Bool :=
  c = ' ' || c = '\t' || c = '\n' || c = '\r' || c.toNat = 11 || c.toNat = 12

/-- Python str.strip with no arguments: drop leading and trailing whitespace. -/
def pyStrip (s : String) : String :=
  String.mk (((s.toList.dropWhile isPyWhitespace).reverse.dropWhile isPyWhitespace).reverse)

/-- Python str.lower (ASCII case folding, characterwise). -/
def pyLower (s : String) : String :=
  String.mk (s.toList.map Char.toLower)

/-- Characters matched by the regex class backslash-w (ASCII reading). -/
def isWordChar (c : Char) : Bool :=
  c.isAlphanum || c = '_'

/-- Accumulator pass for wordRuns: cur is the reversed current run of
word characters. -/
def wordRunsGo : List Char → List Char → List (List Char)
  | cur, [] => if cur.isEmpty then [] else [cur.reverse]
  | cur, c :: rest =>
    if isWordChar c then wordRunsGo (c :: cur) rest
    else if cur.isEmpty then wordRunsGo [] rest
    else cur.reverse :: wordRunsGo [] rest

/-- Maximal runs of word characters of a string: re.findall of the
word-character class applied to the character list. -/
def wordRuns (l : List Char) : List (List Char) :=
  wordRunsGo [] l

/-- Whether pat occurs in hay exactly at the current position with word
boundaries on both sides; prev is the character just before the current
position, if any. -/
def matchesHereBounded (prev : Option Char) (hay pat : List Char) : Bool :=
  (match prev with
   | none => true
   | some c => !isWordChar c)
  && pat.isPrefixOf hay
  && (match hay.drop pat.length with
      | [] => true
      | c :: _ => !isWordChar c)

/-- Whether pat occurs anywhere in hay with word boundaries on both
sides. Models a regex search for a word-bounded alternative. -/
def scanWordBounded : Option Char → List Char → List Char → Bool
  | prev, [], pat => matchesHereBounded prev [] pat
  | prev, c :: rest, pat =>
    matchesHereBounded prev (c :: rest) pat || scanWordBounded (some c) rest pat

/-- Whether any of the given words occurs, word-bounded, in the text. -/
def hasWordOf (t : String) (ws : List String) : Bool :=
  ws.any (fun w => scanWordBounded none t.toList w.toList)

/-- Whether sub occurs as a contiguous sublist of hay. -/
def listContainsSub : List Char → List Char → Bool
  | [], sub => sub.isPrefixOf []
  | c :: rest, sub => sub.isPrefixOf (c :: rest) || listContainsSub rest sub

/-- Python substring containment: sub in s. -/
def strContainsSub (s sub : String) : Bool :=
  listContainsSub s.toList sub.toList

/-! ## Configuration (src/voice/app/config.py defaults) -/

structure Settings where
  SR : Nat
  FRAME_MS : Nat
  VAD_AGGR : Nat
  ENDPOINT_SILENCE_MS : Nat
  MIN_SPEECH_MS : Nat
  END_TAIL_MS : Nat
  BARGE_IN_SPEECH_LEAD_IDLE : Nat
  BARGE_IN_SPEECH_LEAD_ACTIVE : Nat
  PHRASE_MIN_CHARS : Nat
  PHRASE_MAX_CHARS : Nat
  PHRASE_COMMIT_PAUSE_MS : Nat
  EMOTION_MODE : Bool
  MEMORY_WINDOW_MINUTES : ℚ
deriving DecidableEq, Repr

/-- The environment defaults given in config.py (MEMORY_WINDOW_MINUTES is
the getattr default 30.0 used in session.py since config.py has no such
field). -/
def defaultSettings : Settings where
  SR := 16000
  FRAME_MS := 20
  VAD_AGGR := 2
  ENDPOINT_SILENCE_MS := 450
  MIN_SPEECH_MS := 250
  END_TAIL_MS := 120
  BARGE_IN_SPEECH_LEAD_IDLE := 2
  BARGE_IN_SPEECH_LEAD_ACTIVE := 6
  PHRASE_MIN_CHARS := 28
  PHRASE_MAX_CHARS := 120
  PHRASE_COMMIT_PAUSE_MS := 180
  EMOTION_MODE := true
  MEMORY_WINDOW_MINUTES := 30

/-! ## Phrase segmentation (session.py ends_sentence / commit_needed) -/

/-- session.py ends_sentence: the regex search for a sentence-ending
character followed by optional whitespace at the end of buf.strip();
since the argument is stripped first this holds exactly when the stripped
buffer ends in one of the three characters. -/
def ends_sentence (buf : String) : Bool :=
  match (pyStrip buf).toList.getLast? with
  | some c => c = '.' || c = '!' || c = '?'
  | none => false

/-- session.py commit_needed (closure inside _finalize_and_reply); now and
last_emit are wall-clock seconds. Note the source strips the buffer before
measuring its length. -/
def commit_needed (st : Settings) (now last_emit : ℚ) (buf : String) : Bool :=
  let s := pyStrip buf
  if s.length ≥ st.PHRASE_MAX_CHARS then true
  else if s.length ≥ st.PHRASE_MIN_CHARS && ends_sentence buf then true
  else if s.length ≥ st.PHRASE_MIN_CHARS &&
          ((now - last_emit) * 1000 ≥ (st.PHRASE_COMMIT_PAUSE_MS : ℚ)) then true
  else false

/-- The contraction of cannot, built from character codes (code 39 is the
apostrophe). -/
def cantWord : String :=
  String.mk ['c', 'a', 'n', Char.ofNat 39, 't']

/-- session.py detect_emotion_playback_rate. -/
def detect_emotion_playback_rate (text : String) : ℚ :=
  let t := pyLower text
  if ["great", "awesome", "perfect", "nice", "congrats", "yay", "happy"].any
      (fun w => strContainsSub t w) then 1.06
  else if ["sorry", "unfortunately", "sad", "issue", "problem", cantWord, "cannot"].any
      (fun w => strContainsSub t w) then 0.96
  else if ["warning", "important", "careful", "critical"].any
      (fun w => strContainsSub t w) then 1.02
  else 1.00

/-! ## Conversation memory (src/voice/app/conversation_memory.py) -/

/-- MemoryEntry dataclass. Times are wall-clock seconds. -/
structure MemoryEntry where
  ts_start : ℚ
  ts_end : ℚ
  text : String
  tags : List String
  entities : List String
  speaker : Option String
deriving DecidableEq, Repr

/-- conversation_memory.py _heuristic_tags. -/
def heuristicTags (text : String) : List String :=
  let t := pyLower text
  (if hasWordOf t ["fact", "check", "verify", "true", "false", "claim"]
   then ["fact_check"] else []) ++
  (if hasWordOf t ["summarize", "summary", "recap"]
   then ["summary"] else []) ++
  (if hasWordOf t ["when", "time", "minute", "hour", "last"]
   then ["temporal"] else []) ++
  (if hasWordOf t ["what did i say", "what did we discuss"]
   then ["recall"] else [])

/-- The state of a ConversationMemory object: the configured window and
the internal entry list. -/
structure ConversationMemoryState where
  window_minutes : ℚ
  entries : List MemoryEntry
deriving DecidableEq, Repr

/-- ConversationMemory construction: window clamped below at 0.1 minutes,
empty entry list. -/
def mkConversationMemory (window_minutes : ℚ) : ConversationMemoryState where
  window_minutes := max 0.1 window_minutes
  entries := []

/-- ConversationMemory._evict_old at wall-clock time now: keep entries
whose ts_end is at least now minus the window in seconds. -/
def evictOld (now : ℚ) (cm : ConversationMemoryState) : ConversationMemoryState :=
  { cm with entries :=
      cm.entries.filter (fun e => e.ts_end ≥ now - cm.window_minutes * 60) }

/-- ConversationMemory.add_text. The explicit time parameter now plays the
role of the optional ts argument, defaulting in the source to time.time().
Empty text raises ValueError, modelled by the error constructor. An empty
tags list is falsy in Python, so heuristic tags are used then as well. -/
def addText (cm : ConversationMemoryState) (text : String) (speaker : Option String)
    (tags : Option (List String)) (entities : Option (List String)) (now : ℚ) :
    Except String (MemoryEntry × ConversationMemoryState) :=
  if pyStrip text = "" then
    .error "add_text requires non-empty text"
  else
    let entry_tags := match tags with
      | some ts => if ts.isEmpty then heuristicTags text else ts
      | none => heuristicTags text
    let entry : MemoryEntry :=
      { ts_start := now
        ts_end := now
        text := pyStrip text
        tags := entry_tags
        entities := (entities.getD [])
        speaker := speaker }
    let cm1 := evictOld now cm
    .ok (entry, { cm1 with entries := cm1.entries ++ [entry] })

/-- ConversationMemory.query_last: evict, then return entries whose ts_end
falls within the last given minutes. Returns the result list and the
post-call memory state (eviction mutates the object in the source). -/
def queryLast (cm : ConversationMemoryState) (minutes : ℚ) (now : ℚ) :
    List MemoryEntry × ConversationMemoryState :=
  let cm1 := evictOld now cm
  let cutoff := now - minutes * 60
  (cm1.entries.filter (fun e => e.ts_end ≥ cutoff), cm1)

/-- ConversationMemory.query_topic: a blank query returns the empty list
without evicting; otherwise evict, split the query into words, and return
entries whose text contains any query word as a substring (the source
falls back to all entries when the query has no word characters). -/
def queryTopic (cm : ConversationMemoryState) (q : String) (now : ℚ) :
    List MemoryEntry × ConversationMemoryState :=
  if pyStrip q = "" then
    ([], cm)
  else
    let cm1 := evictOld now cm
    let words := wordRuns (pyLower q).toList
    if words.isEmpty then
      (cm1.entries, cm1)
    else
      (cm1.entries.filter
        (fun e => words.any (fun w => listContainsSub (pyLower e.text).toList w)), cm1)

/-! ## Wire protocol messages and session data (session.py) -/

/-- Frame dataclass: timestamp plus PCM16 payload bytes. -/
structure Frame where
  ts : ℚ
  pcm16 : List Int
deriving DecidableEq, Repr

/-- Session-scoped profile dictionary global_profile. -/
structure Profile where
  assistant_name : String
  wake_word : String
  user_name : String
  timezone : String
  location : String
deriving DecidableEq, Repr

/-- One message of the OpenAI-style chat message list. -/
structure ChatMsg where
  role : String
  content : String
deriving DecidableEq, Repr

/-- Outbound JSON messages put on the out queue by the session. The
audio_out payload carries the encoded PCM bytes. -/
inductive OutMsg where
  | event (name : String) (generation_id : Nat)
  | cancelMsg (generation_id : Nat)
  | asrFinal (turn_id : Nat) (generation_id : Nat) (text : String)
  | assistantText (generation_id : Nat) (text : String)
  | audioOut (generation_id : Nat) (sample_rate : Nat) (playback_rate : ℚ) (pcm : List Int)
  | errorMsg (loc : String) (message : String) (generation_id : Nat)
  | contextAck (system_prompt : String) (cleared : Bool)
  | profileUpdate (p : Profile)
deriving DecidableEq, Repr

/-- Whether a message is an audio_out chunk. -/
def OutMsg.isAudioOut : OutMsg → Bool
  | .audioOut _ _ _ _ => true
  | _ => false

/-- Whether a message is an error event (any loc). -/
def OutMsg.isError : OutMsg → Bool
  | .errorMsg _ _ _ => true
  | _ => false

/-- Whether a message is an error event with the given loc field. -/
def OutMsg.isErrorAt (w : String) : OutMsg → Bool
  | .errorMsg loc _ _ => loc = w
  | _ => false

/-- Whether a message is an asr_final event. -/
def OutMsg.isAsrFinal : OutMsg → Bool
  | .asrFinal _ _ _ => true
  | _ => false

/-- A JSON control message from the client, as read by on_control via
data.get: absent keys are none. -/
structure ControlData where
  type : String
  system_prompt : Option String := none
  use_knowledge_base : Option Bool := none
  persona : Option String := none
  context_window : Option String := none
  voice_bot_name : Option String := none
  voice_user_name : Option String := none
  assistant_name : Option String := none
  wake_word : Option String := none
  user_name : Option String := none
  timezone : Option String := none
  location : Option String := none
  listen_only : Option Bool := none
  trigger_phrases : Option (List String) := none
  clear_memory : Option Bool := none
  piper_voice : Option String := none
deriving DecidableEq, Repr

/-- The mutable state of one OmniSessionA object. Tasks are identified by
numbers drawn from nextTaskId; activeFinalize records the finalize tasks
that have been created and are neither cancelled nor completed, so the
one-active-finalize guarantee is the length of this list. The fields
speech_run and nonspeech_run are written by the cancel path but never
initialized in the constructor of the source (they are never read), hence
Option. The asyncio in queue has maxsize 500. -/
structure SessionState where
  settings : Settings
  sr : Nat
  frame_ms : Nat
  frame_bytes : Nat
  endpoint_silence_frames : Nat
  min_speech_frames : Nat
  tail_frames : Nat
  generation_id : Nat
  turn_id : Nat
  in_q : List Frame
  closed : Bool
  finalize_task : Option Nat
  reply_task : Option Nat
  llm_prod_task : Option Nat
  kickoff_task : Option Nat
  activeFinalize : List Nat
  nextTaskId : Nat
  in_speech : Bool
  silence_count : Nat
  speech_count : Nat
  speech_lead_count : Nat
  utt : List Frame
  utt_max_frames : Nat
  assistant_is_speaking : Bool
  assistant_active_gen : Option Nat
  speech_run : Option Nat
  nonspeech_run : Option Nat
  system_prompt : String
  use_knowledge_base : Bool
  persona : String
  context_window : String
  voice_bot_name : String
  voice_user_name : String
  listen_only : Bool
  listen_buffer : List String
  trigger_phrases : List String
  history : List ChatMsg
  memory : ConversationMemoryState
  global_profile : Profile
deriving DecidableEq, Repr

/-- The constructor OmniSessionA.__init__ under the given settings.
Derived frame counts use integer division exactly as int() of the float
quotients in the source. The DEFAULT_ getattr lookups all miss config.py
and fall back to the literals given in session.py. -/
def initState (st : Settings) : SessionState where
  settings := st
  sr := st.SR
  frame_ms := st.FRAME_MS
  frame_bytes := st.SR * st.FRAME_MS * 2 / 1000
  endpoint_silence_frames := max 1 (st.ENDPOINT_SILENCE_MS / st.FRAME_MS)
  min_speech_frames := max 1 (st.MIN_SPEECH_MS / st.FRAME_MS)
  tail_frames := max 0 (st.END_TAIL_MS / st.FRAME_MS)
  generation_id := 0
  turn_id := 0
  in_q := []
  closed := false
  finalize_task := none
  reply_task := none
  llm_prod_task := none
  kickoff_task := none
  activeFinalize := []
  nextTaskId := 0
  in_speech := false
  silence_count := 0
  speech_count := 0
  speech_lead_count := 0
  utt := []
  utt_max_frames := max 1 (15000 / st.FRAME_MS)
  assistant_is_speaking := false
  assistant_active_gen := none
  speech_run := none
  nonspeech_run := none
  system_prompt := "You are a realtime voice assistant. Be concise, helpful, and conversational."
  use_knowledge_base := false
  persona := ""
  context_window := "all"
  voice_bot_name := ""
  voice_user_name := ""
  listen_only := false
  listen_buffer := []
  trigger_phrases :=
    ["now you can speak", "now you can process", "fact check", "fact check it",
     "process that", "speak now", "you can speak"]
  history := []
  memory := mkConversationMemory st.MEMORY_WINDOW_MINUTES
  global_profile :=
    { assistant_name := "EchoMind"
      wake_word := "EchoMind"
      user_name := ""
      timezone := "America/New_York"
      location := "" }

/-! ## Session transitions -/

/-- UtteranceBuffer.push: append, then drop oldest frames while over
capacity (the while loop drops exactly the excess). -/
def uttPush (s : SessionState) (fr : Frame) : SessionState :=
  let fs := s.utt ++ [fr]
  { s with utt := fs.drop (fs.length - s.utt_max_frames) }

/-- OmniSessionA._assistant_active. -/
def assistantActive (s : SessionState) : Bool :=
  s.assistant_is_speaking ||
  s.assistant_active_gen.isSome ||
  (s.reply_task.isSome || s.llm_prod_task.isSome ||
   s.kickoff_task.isSome || s.finalize_task.isSome)

/-- OmniSessionA._cancel_assistant_pipeline. The cancellation lock
serializes these calls, so the transition is modelled as atomic. The
sequence: bump the epoch, cancel all outstanding assistant-side tasks,
clear the speaking and active flags, optionally reset the VAD counters and
the utterance buffer, optionally emit a cancel message carrying the new
epoch. The Moshi forwarding branch is inactive (USE_MOSHI_CORE defaults
off). -/
def cancelAssistantPipeline (keep_listening send_cancel : Bool) (s : SessionState) :
    SessionState × List OutMsg :=
  let s1 := { s with
    generation_id := s.generation_id + 1
    reply_task := none
    llm_prod_task := none
    kickoff_task := none
    finalize_task := none
    activeFinalize := ([] : List Nat)
    assistant_is_speaking := false
    assistant_active_gen := none }
  let s2 :=
    if keep_listening then s1
    else { s1 with
      in_speech := false
      silence_count := 0
      speech_count := 0
      speech_run := some 0
      nonspeech_run := some 0
      utt := ([] : List Frame) }
  (s2, if send_cancel then [OutMsg.cancelMsg s2.generation_id] else [])

/-- OmniSessionA._barge_in: a second epoch increment site in the source,
not guarded by the cancellation lock and with no caller in the repository. -/
def bargeIn (s : SessionState) : SessionState :=
  { s with generation_id := s.generation_id + 1 }

/-- asyncio.Queue.put_nowait on a queue with the given maxsize; the error
models the QueueFull exception. -/
def putNowait (q : List Frame) (maxsize : Nat) (fr : Frame) : Except Unit (List Frame) :=
  if q.length ≥ maxsize then .error () else .ok (q ++ [fr])

/-- OmniSessionA.on_audio_frame: drop the frame when the session is
closed, when the payload size differs from the configured frame size, or
when the bounded in queue is full (QueueFull is caught and ignored). No
message is ever emitted. -/
def onAudioFrame (s : SessionState) (ts : ℚ) (pcm16 : List Int) :
    SessionState × List OutMsg :=
  if s.closed then (s, [])
  else if pcm16.length ≠ s.frame_bytes then (s, [])
  else
    match putNowait s.in_q 500 (Frame.mk ts pcm16) with
    | .ok q => ({ s with in_q := q }, [])
    | .error _ => (s, [])

/-- Cancel of a pending finalize task before scheduling a new one
(_consume_loop lines 487-488): a done task is one absent from
activeFinalize, so erasing is exactly the conditional cancel. -/
def cancelPendingFinalize (s : SessionState) : SessionState :=
  match s.finalize_task with
  | some id => { s with activeFinalize := s.activeFinalize.erase id }
  | none => s

/-- One iteration of OmniSessionA._consume_loop for the frame at the head
of the in queue. The speech / silence classification of the frame is the
oracle pair (energy gate, VAD verdict): is_speech is false whenever the
RMS energy is below the floor, else the webrtcvad verdict. An empty queue
means the loop is suspended awaiting a frame: no transition. -/
def consumeStep (vadSays energyBelowFloor : Bool) (s : SessionState) :
    SessionState × List OutMsg :=
  match s.in_q with
  | [] => (s, [])
  | fr :: rest =>
    let s0 := { s with in_q := rest }
    let is_speech := !energyBelowFloor && vadSays
    if is_speech then
      let s1 := { s0 with
        silence_count := 0
        speech_count := s0.speech_count + 1
        speech_lead_count := s0.speech_lead_count + 1 }
      let lead_idle := max 1 s1.settings.BARGE_IN_SPEECH_LEAD_IDLE
      let lead_active := max 1 s1.settings.BARGE_IN_SPEECH_LEAD_ACTIVE
      let need_lead := if assistantActive s1 then lead_active else lead_idle
      if !s1.in_speech && s1.speech_lead_count ≥ need_lead then
        let s2 := { s1 with in_speech := true, utt := ([] : List Frame) }
        let c := cancelAssistantPipeline true true s2
        (uttPush c.1 fr,
         c.2 ++ [OutMsg.event "USER_SPEECH_START" c.1.generation_id])
      else
        (if s1.in_speech then uttPush s1 fr else s1, [])
    else
      let s1 := { s0 with speech_lead_count := 0 }
      if s1.in_speech then
        let s2 := { s1 with silence_count := s1.silence_count + 1 }
        let s3 := if s2.tail_frames > 0 then uttPush s2 fr else s2
        if s3.silence_count ≥ s3.endpoint_silence_frames then
          let s4 := { s3 with in_speech := false }
          let msgs := [OutMsg.event "USER_SPEECH_END" s4.generation_id]
          if s4.speech_count < s4.min_speech_frames then
            ({ s4 with speech_count := 0, silence_count := 0 }, msgs)
          else
            let s5 := cancelPendingFinalize s4
            ({ s5 with
                finalize_task := some s5.nextTaskId
                activeFinalize := s5.activeFinalize ++ [s5.nextTaskId]
                nextTaskId := s5.nextTaskId + 1
                speech_count := 0
                silence_count := 0 }, msgs)
        else (s3, [])
      else (s1, [])

/-- OmniSessionA.on_control. The or-fallback chains follow Python
truthiness: an absent key reads as none, an empty or whitespace string is
falsy after strip. The piper_voice branch only replaces the TTS adapter
object and emits nothing, so it has no effect on the modelled state. An
unknown type falls through both branches and does nothing. -/
def onControl (d : ControlData) (s : SessionState) : SessionState × List OutMsg :=
  if d.type = "set_context" then
    let sp := pyStrip (d.system_prompt.getD "")
    let cwRaw := d.context_window.getD ""
    let cw := pyStrip (if cwRaw = "" then "all" else cwRaw)
    let p := s.global_profile
    let p1 := match d.assistant_name with
      | some v =>
        let an := pyStrip v
        let an2 := if an = "" then p.assistant_name else an
        { p with assistant_name := an2, wake_word := an2 }
      | none => p
    let p2 := match d.wake_word with
      | some v =>
        let ww := pyStrip v
        { p1 with wake_word := if ww = "" then p1.wake_word else ww }
      | none => p1
    let p3 := match d.user_name with
      | some v => { p2 with user_name := pyStrip v }
      | none => p2
    let p4 := match d.timezone with
      | some v =>
        let tz := pyStrip v
        { p3 with timezone := if tz = "" then "America/New_York" else tz }
      | none => p3
    let p5 := match d.location with
      | some v => { p4 with location := pyStrip v }
      | none => p4
    let s1 := { s with
      system_prompt := if sp = "" then s.system_prompt else sp
      use_knowledge_base := d.use_knowledge_base.getD false
      persona := pyStrip (d.persona.getD "")
      context_window := if cw = "" then "all" else cw
      voice_bot_name := pyStrip (d.voice_bot_name.getD "")
      voice_user_name := pyStrip (d.voice_user_name.getD "")
      global_profile := p5
      listen_only := d.listen_only.getD false }
    let s2 := match d.trigger_phrases with
      | some xs =>
        { s1 with trigger_phrases :=
            (xs.filter (fun x => pyStrip x ≠ "")).map (fun x => pyLower (pyStrip x)) }
      | none => s1
    let s3 := if d.clear_memory.getD false
      then { s2 with history := ([] : List ChatMsg), listen_buffer := ([] : List String) }
      else s2
    (s3, [OutMsg.contextAck s3.system_prompt (d.clear_memory.getD false),
          OutMsg.profileUpdate s3.global_profile])
  else if d.type = "clear_memory" then
    ({ s with history := ([] : List ChatMsg) },
     [OutMsg.contextAck s.system_prompt true])
  else (s, [])

/-- OmniSessionA.close: cancel a pending finalize task and the long-lived
loops, mark closed. The finalize_task field itself is not nulled by
close in the source. -/
def closeSession (s : SessionState) : SessionState :=
  { s with
    closed := true
    activeFinalize :=
      match s.finalize_task with
      | some id => s.activeFinalize.erase id
      | none => s.activeFinalize }

/-- Completion of the current finalize coroutine: the task becomes done,
so it leaves the set of active finalize tasks; the field keeps pointing at
the done task as in the source. -/
def finalizeTaskDone (s : SessionState) : SessionState :=
  match s.finalize_task with
  | some id => { s with activeFinalize := s.activeFinalize.erase id }
  | none => s

/-- The session operations that mutate the session object. The only two
assignment sites of generation_id in session.py outside the constructor
are _cancel_assistant_pipeline (line 285) and _barge_in (line 384); the
consume operation reaches the former through the speech-start branch. The
reply, producer and finalize coroutines never write generation_id. -/
inductive SessionOp where
  | cancel (keep_listening send_cancel : Bool)
  | bargeInOp
  | audioFrame (ts : ℚ) (pcm16 : List Int)
  | consume (vadSays energyBelowFloor : Bool)
  | control (d : ControlData)
  | finalizeDone
  | closeOp
deriving DecidableEq, Repr

/-- Apply one session operation, returning the new state and the messages
put on the outbound queue. -/
def applyOp : SessionOp → SessionState → SessionState × List OutMsg
  | .cancel kl sc, s => cancelAssistantPipeline kl sc s
  | .bargeInOp, s => (bargeIn s, [])
  | .audioFrame ts p, s => onAudioFrame s ts p
  | .consume v e, s => consumeStep v e s
  | .control d, s => onControl d s
  | .finalizeDone, s => (finalizeTaskDone s, [])
  | .closeOp, s => (closeSession s, [])

/-- Apply a sequence of session operations. -/
def applyOps : List SessionOp → SessionState → SessionState
  | [], s => s
  | op :: rest, s => applyOps rest (applyOp op s).1

/-- Whether executing the operation from the given state runs
_cancel_assistant_pipeline (directly, or through the speech-start branch
of the consume loop). -/
def invokesCancelPipeline : SessionOp → SessionState → Bool
  | .cancel _ _, _ => true
  | .consume v e, s =>
    (match s.in_q with | [] => false | _ :: _ => true) &&
    (!e && v) && !s.in_speech &&
    decide (s.speech_lead_count + 1 ≥
      (if assistantActive s then max 1 s.settings.BARGE_IN_SPEECH_LEAD_ACTIVE
       else max 1 s.settings.BARGE_IN_SPEECH_LEAD_IDLE))
  | _, _ => false

/-- The one-active-finalize-task invariant: at most one finalize task is
pending, and any pending one is the task the finalize_task field points
at. -/
def finalizeInv (s : SessionState) : Prop :=
  s.activeFinalize.length ≤ 1 ∧ ∀ id ∈ s.activeFinalize, s.finalize_task = some id

/-! ## Producer task traces (epoch-fenced emission) -/

/-- The collaborator and helper functions a speaking task uses:
strip_markdown_for_speech, the Piper synthesizer (error constructor models
a raised exception), its output sample rate, and the per-chunk DSP
pipeline (fade edges then float to PCM16 bytes; exact DSP is a declared
non-goal of the spec). -/
structure SpeakEnv where
  stripMarkdown : String → String
  ttsSynth : String → Except String (List ℚ)
  ttsSr : Nat
  encode : List ℚ → List Int
  settings : Settings

/-- Split a sample buffer into consecutive chunks of n samples (the while
loop slicing y by chunk_samples). -/
def chunksOf (n : Nat) (y : List ℚ) : List (List ℚ) :=
  if y = [] then []
  else if n = 0 then [y]
  else y.take n :: chunksOf n (y.drop n)
termination_by y.length
decreasing_by
  rename_i hy hn
  have h1 : 0 < y.length := List.length_pos.mpr hy
  simp only [List.length_drop]
  omega

/-- The emission loop of _speak_phrase: before every audio chunk the task
re-reads generation_id (oracle call k, in program order) and aborts if it
differs from the epoch captured at task creation. -/
def emitChunks (myGen : Nat) (gens : Nat → Nat) (sr : Nat) (rate : ℚ)
    (encode : List ℚ → List Int) : Nat → List (List ℚ) → List OutMsg
  | _, [] => []
  | k, c :: rest =>
    if gens k ≠ myGen then []
    else OutMsg.audioOut myGen sr rate (encode c) ::
      emitChunks myGen gens sr rate encode (k + 1) rest

/-- OmniSessionA._speak_phrase as an emission trace. Oracle read 0 is the
guard at the top of the function; reads 1, 2, ... are the per-chunk
guards. A synthesis failure emits the tts error message tagged with the
creation epoch (with no further epoch read) and returns. -/
def speakPhrase (env : SpeakEnv) (myGen : Nat) (gens : Nat → Nat)
    (phrase0 : String) (is_filler : Bool) : List OutMsg :=
  if gens 0 ≠ myGen then []
  else
    let phrase := env.stripMarkdown phrase0
    if phrase = "" then []
    else
      let rate := if env.settings.EMOTION_MODE && !is_filler
                  then detect_emotion_playback_rate phrase else 1
      match env.ttsSynth phrase with
      | .error e => [OutMsg.errorMsg "tts" e myGen]
      | .ok y =>
        let chunk_samples := max (env.ttsSr * 35 / 100) 256
        emitChunks myGen gens env.ttsSr rate env.encode 1 (chunksOf chunk_samples y)

/-- The direct-reply path of _finalize_and_reply (handled command with a
response text, session.py lines 561-574) as an emission trace: asr_final,
SPEAKING, assistant_text and the final BACK_TO_LISTENING are all tagged
with the creation epoch my_gen and emitted without re-reading the current
epoch; only the inner _speak_phrase consults the oracle. -/
def directReplySegment (env : SpeakEnv) (myGen : Nat) (gens : Nat → Nat)
    (turn_id : Nat) (user_text response_text : String) : List OutMsg :=
  OutMsg.asrFinal (turn_id + 1) myGen user_text ::
  OutMsg.event "SPEAKING" myGen ::
  OutMsg.assistantText myGen response_text ::
  (speakPhrase env myGen gens response_text false ++
   [OutMsg.event "BACK_TO_LISTENING" myGen])

/-- The except-branch of the LLM streaming path in _finalize_and_reply
(session.py lines 847-868): emit the llm_stream error, fall back once to
the synchronous completion call on the very same message list; if that
also fails emit the llm error and abort the turn, otherwise speak the
fallback reply and end with BACK_TO_LISTENING. Returns the emission trace
and the list of argument lists passed to the completion call. -/
def llmStreamFailureHandler (env : SpeakEnv)
    (complete : List ChatMsg → Except String String)
    (gens : Nat → Nat) (myGen : Nat) (messages : List ChatMsg) (streamErr : String) :
    List OutMsg × List (List ChatMsg) :=
  match complete messages with
  | .error e2 =>
    ([OutMsg.errorMsg "llm_stream" streamErr myGen, OutMsg.errorMsg "llm" e2 myGen],
     [messages])
  | .ok reply =>
    let reply_clean := env.stripMarkdown reply
    (OutMsg.errorMsg "llm_stream" streamErr myGen ::
     ((if reply_clean ≠ "" then [OutMsg.assistantText myGen reply_clean] else []) ++
      speakPhrase env myGen gens reply false ++
      [OutMsg.event "BACK_TO_LISTENING" myGen]),
     [messages])

/-! ## WebSocket endpoint (src/voice/app/server.py) -/

/-- One inbound socket message after the parsing done in ws_endpoint:
text that fails json.loads, JSON that is not an object, an audio_frame
whose base64 payload fails to decode, a decoded audio frame, or a control
message. -/
inductive RawInbound where
  | malformedText
  | nonDictJson
  | audioFrameBadB64
  | audioFrameMsg (ts : ℚ) (pcm16 : List Int)
  | controlMsg (d : ControlData)
deriving DecidableEq, Repr

/-- One iteration of the ws_endpoint receive loop: malformed JSON,
non-object JSON and undecodable audio payloads are skipped silently
(continue); frames go to on_audio_frame and everything else to
on_control. -/
def wsHandleInbound : RawInbound → SessionState → SessionState × List OutMsg
  | .malformedText, s => (s, [])
  | .nonDictJson, s => (s, [])
  | .audioFrameBadB64, s => (s, [])
  | .audioFrameMsg ts p, s => onAudioFrame s ts p
  | .controlMsg d, s => onControl d s

/-- The messages ws_endpoint emits when an exception escapes the receive
loop: the handler is a bare pass, so nothing is sent before the session is
closed. -/
def wsExceptionMsgs : List OutMsg := []

/-! ## Shared lemmas -/

/-- on_audio_frame never puts anything on the outbound queue. -/
theorem onAudioFrame_emits_nothing (s : SessionState) (ts : ℚ) (pcm16 : List Int) :
    (onAudioFrame s ts pcm16).2 = [] := by
  unfold onAudioFrame putNowait
  split_ifs <;> rfl

/-- on_audio_frame only touches the inbound queue. -/
theorem onAudioFrame_preserves (s : SessionState) (ts : ℚ) (pcm16 : List Int) :
    (onAudioFrame s ts pcm16).1.generation_id = s.generation_id ∧
    (onAudioFrame s ts pcm16).1.finalize_task = s.finalize_task ∧
    (onAudioFrame s ts pcm16).1.activeFinalize = s.activeFinalize ∧
    (onAudioFrame s ts pcm16).1.nextTaskId = s.nextTaskId := by
  unfold onAudioFrame putNowait
  split_ifs <;> exact ⟨rfl, rfl, rfl, rfl⟩

/-- on_control never touches the epoch or the finalize bookkeeping. -/
theorem onControl_preserves (d : ControlData) (s : SessionState) :
    (onControl d s).1.generation_id = s.generation_id ∧
    (onControl d s).1.finalize_task = s.finalize_task ∧
    (onControl d s).1.activeFinalize = s.activeFinalize ∧
    (onControl d s).1.nextTaskId = s.nextTaskId := by
  unfold onControl
  split_ifs with h1 hcm h2
  · cases htp : d.trigger_phrases <;> refine ⟨?_, ?_, ?_, ?_⟩ <;> simp [htp]
  · cases htp : d.trigger_phrases <;> refine ⟨?_, ?_, ?_, ?_⟩ <;> simp [htp]
  · exact ⟨rfl, rfl, rfl, rfl⟩
  · exact ⟨rfl, rfl, rfl, rfl⟩

/-- on_control never emits an error event. -/
theorem onControl_no_error (d : ControlData) (s : SessionState) :
    ∀ m ∈ (onControl d s).2, m.isError = false := by
  unfold onControl
  split_ifs with h1 hcm h2
  · intro m hm
    simp only [List.mem_cons, List.not_mem_nil, or_false] at hm
    rcases hm with rfl | rfl <;> rfl
  · intro m hm
    simp only [List.mem_cons, List.not_mem_nil, or_false] at hm
    rcases hm with rfl | rfl <;> rfl
  · intro m hm
    simp only [List.mem_cons, List.not_mem_nil, or_false] at hm
    subst hm
    rfl
  · intro m hm
    simp at hm

/-! ## Claim C5 (PhraseSegmenter hard cap) -/

/-- Claim C5 as frozen is false: commit_needed measures the length of the
stripped buffer, so a 120 character buffer (the default PHRASE_MAX_CHARS)
whose last character is a space does not commit, even with no elapsed
pause and regardless of punctuation. -/
theorem c5_whitespace_tail_counterexample :
    (String.mk (List.replicate 119 'x' ++ [' '])).length = 120 ∧
    defaultSettings.PHRASE_MAX_CHARS = 120 ∧
    commit_needed defaultSettings 0 0 (String.mk (List.replicate 119 'x' ++ [' '])) = false := by
  refine ⟨by decide, rfl, ?_⟩
  unfold commit_needed
  rw [if_neg (by decide), if_neg (by decide)]
  have hq : decide (((0:ℚ) - 0) * 1000 ≥ ((defaultSettings.PHRASE_COMMIT_PAUSE_MS : Nat) : ℚ)) = false := by
    norm_num [defaultSettings]
  simp [hq]
  decide

/-- Claim C5, amended: for every token buffer whose stripped length
reaches PHRASE_MAX_CHARS, commit_needed returns true regardless of
trailing punctuation or elapsed time since the last token. -/
theorem c5_commit_on_stripped_max_chars (st : Settings) (now last_emit : ℚ) (buf : String)
    (h : st.PHRASE_MAX_CHARS ≤ (pyStrip buf).length) :
    commit_needed st now last_emit buf = true := by
  unfold commit_needed
  simp [h]

/-- Witness for C5: a 120 character all-text buffer commits under the
default settings with zero elapsed time. -/
theorem c5_commit_on_stripped_max_chars_witness :
    commit_needed defaultSettings 0 0 (String.mk (List.replicate 120 'x')) = true :=
  c5_commit_on_stripped_max_chars defaultSettings 0 0 _ (by decide)

/-! ## Claim C7 (frame condition of cancellation) -/

/-- Claim C7: _cancel_assistant_pipeline always bumps the epoch, clears
the speaking and active flags and all four task slots; with
keep_listening it leaves the utterance buffer and the VAD
speech/silence/in-speech counters untouched, and without it it resets
them all. -/
theorem c7_cancel_frame_condition (keep_listening send_cancel : Bool) (s : SessionState) :
    (cancelAssistantPipeline keep_listening send_cancel s).1.generation_id = s.generation_id + 1 ∧
    (cancelAssistantPipeline keep_listening send_cancel s).1.assistant_is_speaking = false ∧
    (cancelAssistantPipeline keep_listening send_cancel s).1.assistant_active_gen = none ∧
    (cancelAssistantPipeline keep_listening send_cancel s).1.reply_task = none ∧
    (cancelAssistantPipeline keep_listening send_cancel s).1.llm_prod_task = none ∧
    (cancelAssistantPipeline keep_listening send_cancel s).1.kickoff_task = none ∧
    (cancelAssistantPipeline keep_listening send_cancel s).1.finalize_task = none ∧
    (cancelAssistantPipeline keep_listening send_cancel s).1.activeFinalize = [] ∧
    (cancelAssistantPipeline keep_listening send_cancel s).1.utt =
      (if keep_listening then s.utt else []) ∧
    (cancelAssistantPipeline keep_listening send_cancel s).1.in_speech =
      (if keep_listening then s.in_speech else false) ∧
    (cancelAssistantPipeline keep_listening send_cancel s).1.silence_count =
      (if keep_listening then s.silence_count else 0) ∧
    (cancelAssistantPipeline keep_listening send_cancel s).1.speech_count =
      (if keep_listening then s.speech_count else 0) := by
  cases keep_listening <;> simp [cancelAssistantPipeline]

/-! ## Claim C10 (audio frame guard) -/

/-- Claim C10: a frame whose payload size differs from the configured
frame size, or one arriving while the bounded inbound queue is full, is
silently discarded: the state is unchanged and nothing is emitted (the
QueueFull exception is caught inside on_audio_frame, which is total). -/
theorem c10_audio_frame_guard (s : SessionState) (ts : ℚ) (pcm16 : List Int)
    (h : pcm16.length ≠ s.frame_bytes ∨ 500 ≤ s.in_q.length) :
    onAudioFrame s ts pcm16 = (s, []) := by
  unfold onAudioFrame putNowait
  by_cases hc : s.closed
  · simp [hc]
  · by_cases hl : pcm16.length = s.frame_bytes
    · rcases h with h | h
      · exact absurd hl h
      · simp [hc, hl, h]
    · simp [hc, hl]

/-- Witness for C10: a one-byte frame against the default 640-byte frame
size is dropped without any state change. -/
theorem c10_audio_frame_guard_witness :
    onAudioFrame (initState defaultSettings) 0 [0] = (initState defaultSettings, []) :=
  c10_audio_frame_guard _ _ _ (Or.inl (by decide))

/-! ## Claim C9 (error surfacing) -/

/-- Claim C9 as frozen is false: an unknown client command produces no
message at all (on_control falls through both type checks), and an
exception escaping the ws_endpoint receive loop is swallowed by a bare
pass, so the session closes without any client-visible error event. -/
theorem c9_unknown_command_silent_counterexample :
    onControl { type := "make_me_a_sandwich" } (initState defaultSettings) =
      (initState defaultSettings, []) ∧
    wsExceptionMsgs = [] :=
  ⟨rfl, rfl⟩

/-- Claim C9, amended: the receive loop and control dispatch never emit
any error event: malformed JSON, undecodable audio payloads and unknown
commands are silently skipped, and a WebSocket-level exception closes the
session with no message; client-visible error events come only from the
turn-level handlers inside _finalize_and_reply and _speak_phrase. -/
theorem c9_no_error_events_amended :
    (∀ inb s, ∀ m ∈ (wsHandleInbound inb s).2, m.isError = false) ∧
    wsExceptionMsgs = [] := by
  refine ⟨?_, rfl⟩
  intro inb s m hm
  cases inb with
  | malformedText => simp [wsHandleInbound] at hm
  | nonDictJson => simp [wsHandleInbound] at hm
  | audioFrameBadB64 => simp [wsHandleInbound] at hm
  | audioFrameMsg ts p =>
    rw [wsHandleInbound, onAudioFrame_emits_nothing] at hm
    simp at hm
  | controlMsg d => exact onControl_no_error d s m hm

/-- Witness for C9: the context_ack produced by a clear_memory command is
not an error event. -/
theorem c9_no_error_events_amended_witness :
    (OutMsg.contextAck (initState defaultSettings).system_prompt true).isError = false :=
  c9_no_error_events_amended.1 (.controlMsg { type := "clear_memory" })
    (initState defaultSettings) _ (by simp [wsHandleInbound, onControl])

/-! ## Claim C6 (conversation memory window) -/

/-- Entries surviving _evict_old are recent and were already present. -/
theorem mem_evictOld (now : ℚ) (cm : ConversationMemoryState) (e : MemoryEntry)
    (h : e ∈ (evictOld now cm).entries) :
    now - cm.window_minutes * 60 ≤ e.ts_end ∧ e ∈ cm.entries := by
  unfold evictOld at h
  simp only [List.mem_filter, decide_eq_true_eq, ge_iff_le] at h
  exact ⟨h.2, h.1⟩

/-- Claim C6 as frozen is false in its eviction-on-every-call part: a
query_topic call with a blank query returns early, before the eviction
step, so a stale entry (here one minute window, entry finalized at time 0,
call at time 1000) is retained by a reading call. The first conjunct shows
the state is reachable through add_text. -/
theorem c6_blank_topic_skips_eviction_counterexample :
    (addText (mkConversationMemory 1) "hello there" (some "user") none none 0).map
        (fun p => p.2.entries) =
      .ok [{ ts_start := 0, ts_end := 0, text := "hello there", tags := [], entities := [],
             speaker := some "user" }] ∧
    (mkConversationMemory 1).window_minutes = 1 ∧
    queryTopic { window_minutes := 1,
                 entries := [{ ts_start := 0, ts_end := 0, text := "hello there", tags := [],
                               entities := [], speaker := some "user" }] } " " 1000 =
      ([], { window_minutes := 1,
             entries := [{ ts_start := 0, ts_end := 0, text := "hello there", tags := [],
                           entities := [], speaker := some "user" }] }) ∧
    (0 : ℚ) < 1000 - 1 * 60 := by
  refine ⟨rfl, ?_, rfl, by norm_num⟩
  show max (0.1 : ℚ) 1 = 1
  exact max_eq_right (by norm_num)

/-- Claim C6, amended: query_last never returns an entry older than now
minus the requested minutes, and every mutating or reading call except a
blank-query query_topic evicts, so neither returns nor retains any entry
older than now minus the configured window (for add_text under the
constructor-guaranteed nonnegative window). -/
theorem c6_memory_window_amended :
    (∀ cm minutes now, ∀ e ∈ (queryLast cm minutes now).1, now - minutes * 60 ≤ e.ts_end) ∧
    (∀ cm minutes now, ∀ e ∈ (queryLast cm minutes now).2.entries,
        now - cm.window_minutes * 60 ≤ e.ts_end) ∧
    (∀ cm text speaker tags entities now res,
        addText cm text speaker tags entities now = .ok res → 0 ≤ cm.window_minutes →
        ∀ e ∈ res.2.entries, now - cm.window_minutes * 60 ≤ e.ts_end) ∧
    (∀ cm q now, pyStrip q ≠ "" →
        (∀ e ∈ (queryTopic cm q now).1, now - cm.window_minutes * 60 ≤ e.ts_end) ∧
        (∀ e ∈ (queryTopic cm q now).2.entries, now - cm.window_minutes * 60 ≤ e.ts_end)) := by
  refine ⟨?_, ?_, ?_, ?_⟩
  · intro cm minutes now e he
    unfold queryLast at he
    simp only [List.mem_filter, decide_eq_true_eq, ge_iff_le] at he
    exact he.2
  · intro cm minutes now e he
    unfold queryLast at he
    exact (mem_evictOld now cm e he).1
  · intro cm text speaker tags entities now res hok hw e he
    unfold addText at hok
    split_ifs at hok with hblank
    simp only [Except.ok.injEq] at hok
    subst hok
    simp only [List.mem_append, List.mem_singleton] at he
    rcases he with he | rfl
    · exact (mem_evictOld now cm e he).1
    · have h60 : (0:ℚ) ≤ cm.window_minutes * 60 := by positivity
      show now - cm.window_minutes * 60 ≤ now
      linarith
  · intro cm q now hq
    constructor <;> intro e he <;> simp only [queryTopic, if_neg hq] at he <;>
      split_ifs at he with hw
    · exact (mem_evictOld now cm e he).1
    · simp only [List.mem_filter] at he
      exact (mem_evictOld now cm e he.1).1
    · exact (mem_evictOld now cm e he).1
    · exact (mem_evictOld now cm e he).1

/-- Witness for C6: an entry finalized 20 seconds ago is inside the
5-minute window at query time 1000. -/
theorem c6_memory_window_amended_witness :
    ((1000:ℚ)) - 5 * 60 ≤ (MemoryEntry.mk 980 980 "hi" [] [] none).ts_end := by
  refine c6_memory_window_amended.1 ⟨30, [⟨980, 980, "hi", [], [], none⟩]⟩ 5 1000 _ ?_
  unfold queryLast evictOld
  simp only [List.mem_filter, List.mem_singleton, decide_eq_true_eq, ge_iff_le]
  norm_num

/-! ## Claim C1 (epoch fencing of producers) -/

/-- In the chunk emission loop, once any epoch read differs from the
creation epoch, emission stops: with a persistent mismatch first seen at
read j, at most j - k audio chunks are emitted from read position k. -/
theorem emitChunks_audio_le (myGen : Nat) (gens : Nat → Nat) (sr : Nat) (rate : ℚ)
    (encode : List ℚ → List Int)
    (hpers : ∀ i j, i ≤ j → gens i ≠ myGen → gens j ≠ myGen)
    (j : Nat) (hj : gens j ≠ myGen) :
    ∀ (chunks : List (List ℚ)) (k : Nat),
      (emitChunks myGen gens sr rate encode k chunks).countP OutMsg.isAudioOut ≤ j - k := by
  intro chunks
  induction chunks with
  | nil => intro k; simp [emitChunks]
  | cons c rest ih =>
    intro k
    by_cases hk : gens k = myGen
    · have hkj : k < j := by
        rcases Nat.lt_or_ge k j with h | h
        · exact h
        · exact absurd hk (hpers j k h hj)
      rw [emitChunks, if_neg (by simpa using hk)]
      rw [List.countP_cons]
      have h2 := ih (k + 1)
      simp only [OutMsg.isAudioOut, if_true]
      omega
    · rw [emitChunks, if_pos hk]
      simp

/-- Every message of the chunk emission loop is an audio chunk. -/
theorem emitChunks_mem_isAudioOut (myGen : Nat) (gens : Nat → Nat) (sr : Nat) (rate : ℚ)
    (encode : List ℚ → List Int) :
    ∀ (chunks : List (List ℚ)) (k : Nat) (m : OutMsg),
      m ∈ emitChunks myGen gens sr rate encode k chunks → m.isAudioOut = true := by
  intro chunks
  induction chunks with
  | nil => intro k m hm; simp [emitChunks] at hm
  | cons c rest ih =>
    intro k m hm
    rw [emitChunks] at hm
    split_ifs at hm
    · simp at hm
    · rcases List.mem_cons.mp hm with rfl | h
      · rfl
      · exact ih (k + 1) m h

/-- Every message _speak_phrase emits is either an audio chunk or the tts
error event tagged with the creation epoch. -/
theorem speakPhrase_mem (env : SpeakEnv) (myGen : Nat) (gens : Nat → Nat)
    (phrase : String) (is_filler : Bool) :
    ∀ m ∈ speakPhrase env myGen gens phrase is_filler,
      m.isAudioOut = true ∨ ∃ e, m = OutMsg.errorMsg "tts" e myGen := by
  intro m hm
  unfold speakPhrase at hm
  by_cases h0 : gens 0 ≠ myGen
  · rw [if_pos h0] at hm
    simp at hm
  · rw [if_neg h0] at hm
    by_cases hph : env.stripMarkdown phrase = ""
    · rw [if_pos hph] at hm
      simp at hm
    · rw [if_neg hph] at hm
      rcases henv : env.ttsSynth (env.stripMarkdown phrase) with e | y
      · rw [henv] at hm
        simp at hm
        exact Or.inr ⟨e, hm⟩
      · rw [henv] at hm
        exact Or.inl (emitChunks_mem_isAudioOut myGen gens env.ttsSr _ env.encode _ 1 m hm)

/-- Claim C1 as frozen is false: the direct-reply path emits asr_final,
SPEAKING, assistant_text and BACK_TO_LISTENING tagged with its creation
epoch 0 even though every read of the current epoch returns 1 (the session
epoch has already advanced, e.g. the cancel ran while the task was between
suspension points), so messages tagged a stale generation are still sent
and this producer does not re-check the epoch before each emission. -/
theorem c1_direct_reply_unfenced_counterexample :
    directReplySegment
      { stripMarkdown := fun s => s, ttsSynth := fun _ => .ok [], ttsSr := 22050,
        encode := fun _ => [], settings := defaultSettings }
      0 (fun _ => 1) 0 "hi there" "Okay." =
      [OutMsg.asrFinal 1 0 "hi there", OutMsg.event "SPEAKING" 0,
       OutMsg.assistantText 0 "Okay.", OutMsg.event "BACK_TO_LISTENING" 0] := by
  rfl

/-- Claim C1, amended: the audio side is epoch fenced. _speak_phrase
re-reads the current epoch at entry (read 0) and before every audio chunk
(reads 1, 2, ...), and aborts all remaining audio output at the first
mismatch: if the epoch persistently differs from the creation epoch from
read j on, at most j audio chunks are ever emitted. Text and event
messages of the direct-reply path and the tts error message are not
re-checked; their suppression relies on task cancellation. -/
theorem c1_audio_chunk_epoch_fencing (env : SpeakEnv) (myGen : Nat) (gens : Nat → Nat)
    (phrase : String) (is_filler : Bool)
    (hpers : ∀ i j, i ≤ j → gens i ≠ myGen → gens j ≠ myGen)
    (j : Nat) (hj : gens j ≠ myGen) :
    (speakPhrase env myGen gens phrase is_filler).countP OutMsg.isAudioOut ≤ j := by
  unfold speakPhrase
  by_cases h0 : gens 0 = myGen
  · rw [if_neg (by simpa using h0)]
    by_cases hph : env.stripMarkdown phrase = ""
    · simp [hph]
    · rw [if_neg hph]
      cases hs : env.ttsSynth (env.stripMarkdown phrase) with
      | error e => simp [OutMsg.isAudioOut]
      | ok y =>
        have h := emitChunks_audio_le myGen gens env.ttsSr
          (if env.settings.EMOTION_MODE && !is_filler
           then detect_emotion_playback_rate (env.stripMarkdown phrase) else 1)
          env.encode hpers j hj
          (chunksOf (max (env.ttsSr * 35 / 100) 256) y) 1
        simp only []
        omega
  · rw [if_pos h0]
    simp

/-- Witness for C1: with the epoch already advanced at every read, the
speaking task emits no audio chunk at all. -/
theorem c1_audio_chunk_epoch_fencing_witness :
    (speakPhrase
      { stripMarkdown := fun s => s, ttsSynth := fun _ => .ok [], ttsSr := 22050,
        encode := fun _ => [], settings := defaultSettings }
      0 (fun _ => 1) "Okay." false).countP OutMsg.isAudioOut ≤ 0 :=
  c1_audio_chunk_epoch_fencing _ 0 (fun _ => 1) "Okay." false
    (fun _ _ _ h => h) 0 (by decide)

/-! ## Claim C8 (LLM stream failure fallback) -/

/-- Claim C8 as frozen is false: the handler emits the llm_stream error
event first, before even attempting the fallback completion call, so an
error is surfaced to the client although the fallback (here returning ok)
succeeds. The second conjunct shows the single fallback call that was made
with the same message list. -/
theorem c8_error_surfaced_despite_fallback_counterexample :
    ((llmStreamFailureHandler
        { stripMarkdown := fun s => s, ttsSynth := fun _ => .ok [], ttsSr := 22050,
          encode := fun _ => [], settings := defaultSettings }
        (fun _ => .ok "Done.") (fun _ => 0) 0 [⟨"user", "hi"⟩] "boom").1.head? =
      some (OutMsg.errorMsg "llm_stream" "boom" 0)) ∧
    ((llmStreamFailureHandler
        { stripMarkdown := fun s => s, ttsSynth := fun _ => .ok [], ttsSr := 22050,
          encode := fun _ => [], settings := defaultSettings }
        (fun _ => .ok "Done.") (fun _ => 0) 0 [⟨"user", "hi"⟩] "boom").2 = [[⟨"user", "hi"⟩]]) :=
  ⟨rfl, rfl⟩

/-- Claim C8, amended: on a stream failure the llm_stream error event is
surfaced immediately; then exactly one fallback synchronous completion
call is made with the very same message list; a second error event
(where llm) is surfaced exactly when the fallback also fails. -/
theorem c8_fallback_amended (env : SpeakEnv) (complete : List ChatMsg → Except String String)
    (gens : Nat → Nat) (myGen : Nat) (messages : List ChatMsg) (streamErr : String) :
    (llmStreamFailureHandler env complete gens myGen messages streamErr).2 = [messages] ∧
    OutMsg.errorMsg "llm_stream" streamErr myGen ∈
      (llmStreamFailureHandler env complete gens myGen messages streamErr).1 ∧
    (∀ e2, complete messages = .error e2 →
      OutMsg.errorMsg "llm" e2 myGen ∈
        (llmStreamFailureHandler env complete gens myGen messages streamErr).1) ∧
    (∀ reply, complete messages = .ok reply →
      ∀ m ∈ (llmStreamFailureHandler env complete gens myGen messages streamErr).1,
        OutMsg.isErrorAt "llm" m = false) := by
  unfold llmStreamFailureHandler
  rcases hc : complete messages with e2 | reply
  · refine ⟨rfl, by simp, ?_, ?_⟩
    · intro e2' he
      cases he
      simp
    · intro r hr
      cases hr
  · refine ⟨rfl, by simp, ?_, ?_⟩
    · intro e2 he
      cases he
    · intro r hr m hm
      rcases List.mem_cons.mp hm with rfl | hm
      · rfl
      · rcases List.mem_append.mp hm with hm | hm
        · rcases List.mem_append.mp hm with hm | hm
          · split_ifs at hm
            · simp at hm
              subst hm
              rfl
            · simp at hm
          · rcases speakPhrase_mem env myGen gens reply false m hm with ha | ⟨e, rfl⟩
            · cases m <;> simp_all [OutMsg.isAudioOut, OutMsg.isErrorAt]
            · simp [OutMsg.isErrorAt]
        · simp at hm
          subst hm
          rfl

/-- Witness for C8: a failing fallback surfaces the llm error event. -/
theorem c8_fallback_amended_witness :
    OutMsg.errorMsg "llm" "down" 0 ∈
      (llmStreamFailureHandler
        { stripMarkdown := fun s => s, ttsSynth := fun _ => .ok [], ttsSr := 22050,
          encode := fun _ => [], settings := defaultSettings }
        (fun _ => .error "down") (fun _ => 0) 0 [] "e1").1 :=
  (c8_fallback_amended _ _ _ _ _ _).2.2.1 "down" rfl

/-! ## Claims C2, C3, C4 (session state machine) -/

/-- Cancelling a pending finalize task does not touch the epoch. -/
theorem cancelPendingFinalize_generation (t : SessionState) :
    (cancelPendingFinalize t).generation_id = t.generation_id := by
  unfold cancelPendingFinalize
  cases t.finalize_task <;> rfl

/-- The epoch after one consume-loop iteration: bumped exactly when the
speech-start branch runs _cancel_assistant_pipeline. -/
theorem consumeStep_generation (v e : Bool) (s : SessionState) :
    (consumeStep v e s).1.generation_id =
      if invokesCancelPipeline (SessionOp.consume v e) s = true then s.generation_id + 1
      else s.generation_id := by
  unfold consumeStep invokesCancelPipeline
  cases hq : s.in_q with
  | nil => simp [hq]
  | cons fr rest =>
    simp only [assistantActive, cancelAssistantPipeline, uttPush, hq,
      cancelPendingFinalize_generation]
    split_ifs <;> simp_all [cancelPendingFinalize_generation] <;> omega

/-- The epoch after any session operation: incremented by one exactly when
the operation runs _cancel_assistant_pipeline or is the _barge_in helper,
else unchanged. -/
theorem applyOp_generation (op : SessionOp) (s : SessionState) :
    (applyOp op s).1.generation_id =
      if invokesCancelPipeline op s = true ∨ op = SessionOp.bargeInOp
      then s.generation_id + 1 else s.generation_id := by
  cases op with
  | cancel kl sc =>
    cases kl <;> simp [applyOp, cancelAssistantPipeline, invokesCancelPipeline]
  | bargeInOp => simp [applyOp, bargeIn, invokesCancelPipeline]
  | audioFrame ts p =>
    have h := (onAudioFrame_preserves s ts p).1
    simp [applyOp, invokesCancelPipeline, h]
  | consume v e =>
    have h := consumeStep_generation v e s
    simp only [applyOp] at h ⊢
    rw [h]
    simp
  | control d =>
    have h := (onControl_preserves d s).1
    simp [applyOp, invokesCancelPipeline, h]
  | finalizeDone =>
    have hg : (finalizeTaskDone s).generation_id = s.generation_id := by
      unfold finalizeTaskDone
      cases s.finalize_task <;> rfl
    simp [applyOp, invokesCancelPipeline, hg]
  | closeOp =>
    have hg : (closeSession s).generation_id = s.generation_id := by
      unfold closeSession
      cases s.finalize_task <;> rfl
    simp [applyOp, invokesCancelPipeline, hg]

/-- Claim C2 as frozen is false in its only-increment-site part: the
_barge_in method also increments the epoch, and it is not the
cancellation controller (its code path never runs
_cancel_assistant_pipeline). -/
theorem c2_barge_in_increments_epoch_counterexample :
    (applyOp SessionOp.bargeInOp (initState defaultSettings)).1.generation_id =
      (initState defaultSettings).generation_id + 1 ∧
    invokesCancelPipeline SessionOp.bargeInOp (initState defaultSettings) = false :=
  ⟨rfl, rfl⟩

/-- Claim C2, amended: the generation epoch never decreases under any
operation or operation sequence and never repeats a value once bumped;
every change is an increment by exactly one, performed only by
_cancel_assistant_pipeline (directly or via the consume-loop speech-start
branch) or by the uncalled _barge_in helper. -/
theorem c2_epoch_monotone_amended :
    (∀ op s, s.generation_id ≤ (applyOp op s).1.generation_id) ∧
    (∀ ops s, s.generation_id ≤ (applyOps ops s).generation_id) ∧
    (∀ op s, (applyOp op s).1.generation_id ≠ s.generation_id →
       (applyOp op s).1.generation_id = s.generation_id + 1 ∧
       (invokesCancelPipeline op s = true ∨ op = SessionOp.bargeInOp)) ∧
    (∀ op s, invokesCancelPipeline op s = true →
       (applyOp op s).1.generation_id = s.generation_id + 1) := by
  have hmono : ∀ op s, s.generation_id ≤ (applyOp op s).1.generation_id := by
    intro op s
    rw [applyOp_generation]
    split_ifs <;> omega
  refine ⟨hmono, ?_, ?_, ?_⟩
  · intro ops
    induction ops with
    | nil => intro s; exact le_refl _
    | cons op rest ih =>
      intro s
      calc s.generation_id ≤ (applyOp op s).1.generation_id := hmono op s
        _ ≤ (applyOps rest (applyOp op s).1).generation_id := ih _
  · intro op s hne
    rw [applyOp_generation] at hne ⊢
    split_ifs at hne ⊢ with h
    · exact ⟨rfl, h⟩
    · exact absurd rfl hne
  · intro op s h
    rw [applyOp_generation]
    rw [if_pos (Or.inl h)]

/-- Witness for C2: a cancellation from the initial state bumps the epoch
from 0 to 1. -/
theorem c2_epoch_monotone_amended_witness :
    (applyOp (SessionOp.cancel true true) (initState defaultSettings)).1.generation_id =
      (initState defaultSettings).generation_id + 1 :=
  c2_epoch_monotone_amended.2.2.2 (SessionOp.cancel true true) (initState defaultSettings) rfl

/-- Under the invariant, the conditional cancel of a pending finalize task
leaves no active finalize task. -/
theorem cancelPendingFinalize_active_nil (t : SessionState) (h : finalizeInv t) :
    (cancelPendingFinalize t).activeFinalize = [] := by
  obtain ⟨hlen, hmem⟩ := h
  unfold cancelPendingFinalize
  cases hf : t.finalize_task with
  | none =>
    cases hA : t.activeFinalize with
    | nil => rfl
    | cons a l => exact absurd (hmem a (by simp [hA])) (by simp [hf])
  | some id =>
    cases hA : t.activeFinalize with
    | nil => simp [hA]
    | cons a l =>
      have hl : l = [] := by
        cases l with
        | nil => rfl
        | cons b l2 => rw [hA] at hlen; simp at hlen
      subst hl
      have ha := hmem a (by simp [hA])
      rw [hf] at ha
      have hid : id = a := by injection ha
      subst hid
      simp [hA, List.erase_cons_head]

/-- Completion of the current finalize task preserves the invariant. -/
theorem finalizeTaskDone_inv (t : SessionState) (h : finalizeInv t) :
    finalizeInv (finalizeTaskDone t) := by
  obtain ⟨hlen, hmem⟩ := h
  unfold finalizeTaskDone
  cases hf : t.finalize_task with
  | none => exact ⟨hlen, hmem⟩
  | some id =>
    refine ⟨le_trans (List.length_erase_le id t.activeFinalize) hlen, ?_⟩
    intro x hx
    have hmx := hmem x (List.mem_of_mem_erase hx)
    rw [hf] at hmx
    exact hmx

/-- close preserves the invariant. -/
theorem closeSession_inv (t : SessionState) (h : finalizeInv t) :
    finalizeInv (closeSession t) := by
  obtain ⟨hlen, hmem⟩ := h
  unfold closeSession
  cases hf : t.finalize_task with
  | none =>
    refine ⟨hlen, ?_⟩
    intro x hx
    have hmx := hmem x hx
    rw [hf] at hmx
    exact hmx
  | some id =>
    refine ⟨le_trans (List.length_erase_le id t.activeFinalize) hlen, ?_⟩
    intro x hx
    have hmx := hmem x (List.mem_of_mem_erase hx)
    rw [hf] at hmx
    exact hmx

/-- Scheduling a fresh finalize task after cancelling a pending one
re-establishes the invariant. -/
theorem finalizeInv_schedule (u w : SessionState)
    (hw_active : w.activeFinalize =
      (cancelPendingFinalize u).activeFinalize ++ [(cancelPendingFinalize u).nextTaskId])
    (hw_fin : w.finalize_task = some (cancelPendingFinalize u).nextTaskId)
    (hu : finalizeInv u) :
    finalizeInv w := by
  have hnil := cancelPendingFinalize_active_nil u hu
  constructor
  · rw [hw_active, hnil]
    simp
  · intro x hx
    rw [hw_active, hnil] at hx
    simp at hx
    subst hx
    rw [hw_fin]

/-- One consume-loop iteration preserves the invariant. -/
theorem consumeStep_finalizeInv (v e : Bool) (s : SessionState) (h : finalizeInv s) :
    finalizeInv (consumeStep v e s).1 := by
  unfold consumeStep
  cases hq : s.in_q with
  | nil => simp only [hq]; exact h
  | cons fr rest =>
    simp only [hq]
    split_ifs <;>
      first
      | exact ⟨h.1, h.2⟩
      | exact finalizeInv_schedule _ _ rfl rfl ⟨h.1, h.2⟩
      | (constructor <;> simp [uttPush, cancelAssistantPipeline])

/-- Every session operation preserves the invariant. -/
theorem applyOp_finalizeInv (op : SessionOp) (s : SessionState) (h : finalizeInv s) :
    finalizeInv (applyOp op s).1 := by
  cases op with
  | cancel kl sc =>
    cases kl <;>
      exact ⟨by simp [applyOp, cancelAssistantPipeline],
             by simp [applyOp, cancelAssistantPipeline]⟩
  | bargeInOp => exact ⟨h.1, h.2⟩
  | audioFrame ts p =>
    obtain ⟨-, h2, h3, -⟩ := onAudioFrame_preserves s ts p
    constructor
    · rw [applyOp, h3]; exact h.1
    · intro x hx
      rw [applyOp, h3] at hx
      rw [applyOp, h2]
      exact h.2 x hx
  | control d =>
    obtain ⟨-, h2, h3, -⟩ := onControl_preserves d s
    constructor
    · rw [applyOp, h3]; exact h.1
    · intro x hx
      rw [applyOp, h3] at hx
      rw [applyOp, h2]
      exact h.2 x hx
  | finalizeDone => exact finalizeTaskDone_inv s h
  | closeOp => exact closeSession_inv s h
  | consume v e => exact consumeStep_finalizeInv v e s h

/-- The invariant holds along any operation sequence. -/
theorem applyOps_finalizeInv (ops : List SessionOp) (s : SessionState) (h : finalizeInv s) :
    finalizeInv (applyOps ops s) := by
  induction ops generalizing s with
  | nil => exact h
  | cons op rest ih => exact ih (applyOp op s).1 (applyOp_finalizeInv op s h)

/-- Claim C3: from a fresh session, any sequence of operations leaves at
most one active finalize task (the endpoint path cancels a pending stale
task before scheduling the new one), and _cancel_assistant_pipeline itself
cancels any pending finalize task. -/
theorem c3_at_most_one_finalize_task (st : Settings) (ops : List SessionOp) :
    (applyOps ops (initState st)).activeFinalize.length ≤ 1 ∧
    (∀ kl sc s, (cancelAssistantPipeline kl sc s).1.activeFinalize = []) := by
  constructor
  · exact (applyOps_finalizeInv ops (initState st)
      ⟨by simp [initState], by simp [initState]⟩).1
  · intro kl sc s
    cases kl <;> simp [cancelAssistantPipeline]

/-- Claim C4: at a silence endpoint with fewer accumulated
speech-classified frames than min_speech_frames, the utterance is
discarded: no finalize task is created (no task id is allocated and the
finalize bookkeeping is untouched), the only message is USER_SPEECH_END
(in particular no asr_final), and the VAD counters reset. -/
theorem c4_short_utterance_discarded (s : SessionState) (vadSays energyBelowFloor : Bool)
    (fr : Frame) (rest : List Frame)
    (hq : s.in_q = fr :: rest)
    (hsp : (!energyBelowFloor && vadSays) = false)
    (hin : s.in_speech = true)
    (hend : s.endpoint_silence_frames ≤ s.silence_count + 1)
    (hshort : s.speech_count < s.min_speech_frames) :
    (consumeStep vadSays energyBelowFloor s).1.nextTaskId = s.nextTaskId ∧
    (consumeStep vadSays energyBelowFloor s).1.finalize_task = s.finalize_task ∧
    (consumeStep vadSays energyBelowFloor s).1.activeFinalize = s.activeFinalize ∧
    (consumeStep vadSays energyBelowFloor s).2 =
      [OutMsg.event "USER_SPEECH_END" s.generation_id] ∧
    (consumeStep vadSays energyBelowFloor s).2.countP OutMsg.isAsrFinal = 0 ∧
    (consumeStep vadSays energyBelowFloor s).1.in_speech = false ∧
    (consumeStep vadSays energyBelowFloor s).1.speech_count = 0 ∧
    (consumeStep vadSays energyBelowFloor s).1.silence_count = 0 := by
  unfold consumeStep
  rw [hq]
  simp only [hsp, Bool.false_eq_true, if_false]
  simp only [hin, if_true]
  by_cases ht : s.tail_frames > 0 <;>
    simp [ht, uttPush, hend, hshort, OutMsg.isAsrFinal, hin]

/-- Witness for C4: a 20 ms silence-classified frame at an endpoint after
three speech frames (60 ms, below the default 250 ms minimum) yields only
USER_SPEECH_END and schedules nothing. -/
theorem c4_short_utterance_discarded_witness :
    (consumeStep false false
      { initState defaultSettings with
          in_q := [⟨0, []⟩], in_speech := true, silence_count := 21, speech_count := 3 }).1.nextTaskId =
      ({ initState defaultSettings with
          in_q := [⟨0, []⟩], in_speech := true, silence_count := 21,
          speech_count := 3 } : SessionState).nextTaskId ∧
    (consumeStep false false
      { initState defaultSettings with
          in_q := [⟨0, []⟩], in_speech := true, silence_count := 21, speech_count := 3 }).2 =
      [OutMsg.event "USER_SPEECH_END" 0] := by
  have h := c4_short_utterance_discarded
    { initState defaultSettings with
        in_q := [⟨0, []⟩], in_speech := true, silence_count := 21, speech_count := 3 }
    false false ⟨0, []⟩ [] rfl rfl rfl (by decide) (by decide)
  exact ⟨h.1, h.2.2.2.1⟩

end EchoMind
